import Mathlib

/-!
# gin-easy-todo: startup sequence of `main.go`

`main.go` is the only source file.  Everything it calls lives elsewhere
(`Config`, `Models`, `Routes`, `gorm`, `gin`), so the embedding treats those
calls as an environment (`World`): each call may return a value, panic, or
never return, and may overwrite the exported package variable `Config.DB`.
`main` itself is embedded statement by statement as a program that threads
the two package variables it touches, the list of deferred calls, and a
trace of the externally visible events.
-/

set_option linter.unusedTactic false
set_option linter.unreachableTactic false
set_option linter.unnecessarySeqFocus false

namespace GinEasyTodo

/-! ## Values -/

/-- Go `error` interface value: `none` is `nil`, `some msg` is an error whose
`Error()` text is `msg`. -/
abbrev GoError := Option String

/-- A `*gorm.DB` pointer, as returned by `gorm.Open` and held in `Config.DB`. -/
inductive DBPtr where
  | nil
  | ref (addr : Nat)
  deriving DecidableEq

/-- A `*gin.Engine` pointer, as returned by `Routes.SetupRouter`. -/
inductive EnginePtr where
  | nil
  | ref (addr : Nat)
  deriving DecidableEq

/-- Modelled from the spec: the `Config.DBConfig` type declaration is not in
the sources; the spec lists the connection parameters host, port, user,
password and database name. -/
structure DBConfig where
  host : String
  port : Nat
  user : String
  password : String
  dbName : String
  deriving DecidableEq

/-- Modelled from the spec: the `Models.Todo` type declaration is not in the
sources; the spec gives the entity the attributes id, title, completed,
createdAt and updatedAt. -/
structure Todo where
  id : Nat
  title : String
  completed : Bool
  createdAt : Nat
  updatedAt : Nat
  deriving DecidableEq

/-- The composite literal `Models.Todo{}`: every field has its zero value. -/
def Todo.zero : Todo :=
  { id := 0, title := "", completed := false, createdAt := 0, updatedAt := 0 }

/-- The functions `main` calls outside its own package. -/
inductive Fn where
  | BuildDBConfig
  | DbURL
  | Open
  | AutoMigrate
  | SetupRouter
  | Run
  | Close
  deriving DecidableEq

/-- Values passed to and returned from the external calls.  `todoRef t` is a
pointer to a `Models.Todo` whose value is `t`. -/
inductive Val where
  | str (s : String)
  | config (c : DBConfig)
  | db (p : DBPtr)
  | error (e : GoError)
  | engine (r : EnginePtr)
  | todoRef (t : Todo)
  deriving DecidableEq

/-- Externally visible events of a run.  For a method call the receiver is
the first element of `args`. -/
inductive Event where
  | call (f : Fn) (args : List Val)
  | ret (f : Fn) (results : List Val)
  | panicked (f : Fn)
  | stdout (text : String)
  deriving DecidableEq

/-! ## Environment -/

/-- How an external call ends. -/
inductive Outcome (α : Type) where
  | returns (v : α)
  | panics
  | hangs

/-- What an external call does: how it ends, and the value of `Config.DB` it
leaves behind. -/
structure Reply (α : Type) where
  outcome : Outcome α
  db : DBPtr

/-- An external call sees the current value of `Config.DB`. -/
abbrev Ext (α : Type) := DBPtr → Reply α

/-- The code outside `main.go`. -/
structure World where
  BuildDBConfig : Ext DBConfig
  DbURL : DBConfig → Ext String
  Open : String → String → Ext (DBPtr × GoError)
  AutoMigrate : DBPtr → List Todo → Ext DBPtr
  SetupRouter : Ext EnginePtr
  Run : EnginePtr → List String → Ext GoError
  Close : DBPtr → Ext GoError

/-! ## Execution -/

/-- Program state of `main`: the package variables `Config.DB` and `err`, the
receivers of the deferred `Close` calls (most recent first), and the trace. -/
structure State where
  DB : DBPtr
  err : GoError
  deferred : List DBPtr
  trace : List Event

/-- State at entry of `main`: `var err error` is nil, nothing is deferred. -/
def State.init (db0 : DBPtr) : State :=
  { DB := db0, err := none, deferred := [], trace := [] }

/-- Result of running a statement. -/
inductive Flow (α : Type) where
  | next (v : α) (s : State)
  | panic (s : State)
  | hang (s : State)

/-- The state a statement leaves behind. -/
def Flow.state {α : Type} : Flow α → State
  | .next _ s => s
  | .panic s => s
  | .hang s => s

/-- A statement or expression of `main`. -/
abbrev Prog (α : Type) := State → Flow α

/-- Sequencing: a panic or a call that never returns skips what follows. -/
def Prog.seq {α β : Type} (m : Prog α) (k : α → Prog β) : Prog β := fun s =>
  match m s with
  | .next v s1 => k v s1
  | .panic s1 => .panic s1
  | .hang s1 => .hang s1

instance : Monad Prog where
  pure v := fun s => .next v s
  bind := Prog.seq

/-- Calling an external function: the call is recorded, then its return or
panic; a call that never returns leaves no further event. -/
def extCall {α : Type} (f : Fn) (args : List Val) (body : Ext α) (results : α → List Val) :
    Prog α := fun s =>
  let r := body s.DB
  let t := s.trace ++ [Event.call f args]
  match r.outcome with
  | .returns v => .next v { s with DB := r.db, trace := t ++ [Event.ret f (results v)] }
  | .panics => .panic { s with DB := r.db, trace := t ++ [Event.panicked f] }
  | .hangs => .hang { s with DB := r.db, trace := t }

/-- The text `fmt.Println` writes for an error operand (`%v`). -/
def GoError.format : GoError → String
  | none => "<nil>"
  | some msg => msg

/-- The call `fmt.Println(a, b)`: operands separated by a space, newline appended. -/
def fmtPrintln (a b : String) : Prog Unit := fun s =>
  .next () { s with trace := s.trace ++ [Event.stdout (a ++ " " ++ b ++ "\n")] }

/-- Line 17: `Config.DB, err = gorm.Open("mysql", Config.DbURL((Config.BuildDBConfig())))`. -/
def stmtOpen (w : World) : Prog Unit := do
  let cfg ← extCall .BuildDBConfig [] w.BuildDBConfig (fun c => [.config c])
  let url ← extCall .DbURL [.config cfg] (w.DbURL cfg) (fun u => [.str u])
  let res ← extCall .Open [.str "mysql", .str url] (w.Open "mysql" url)
    (fun r => [.db r.1, .error r.2])
  fun s => .next () { s with DB := res.1, err := res.2 }

/-- Lines 19-21: `if err != nil { fmt.Println("status: ", err) }`. -/
def stmtReport : Prog Unit := fun s =>
  if s.err ≠ none then fmtPrintln "status: " (GoError.format s.err) s else .next () s

/-- Line 23: `defer Config.DB.Close()`; the receiver is evaluated now. -/
def stmtDefer : Prog Unit := fun s =>
  .next () { s with deferred := s.DB :: s.deferred }

/-- Line 26: `Config.DB.AutoMigrate(&Models.Todo{})`; the result is dropped. -/
def stmtMigrate (w : World) : Prog Unit := fun s =>
  (do
    let _ ← extCall .AutoMigrate [.db s.DB, .todoRef Todo.zero]
      (w.AutoMigrate s.DB [Todo.zero]) (fun d => [.db d])
    pure ()) s

/-- Line 29: `r := Routes.SetupRouter()`. -/
def stmtRoutes (w : World) : Prog EnginePtr :=
  extCall .SetupRouter [] w.SetupRouter (fun r => [.engine r])

/-- Line 32: `r.Run()`; the result is dropped. -/
def stmtRun (w : World) (r : EnginePtr) : Prog Unit := do
  let _ ← extCall .Run [.engine r] (w.Run r []) (fun e => [.error e])
  pure ()

/-- Lines 19-32, what follows the assignment of line 17. -/
def afterOpen (w : World) : Prog Unit := do
  stmtReport
  stmtDefer
  stmtMigrate w
  let r ← stmtRoutes w
  stmtRun w r

/-- The body of `main`, lines 17-32. -/
def mainBody (w : World) : Prog Unit := do
  stmtOpen w
  afterOpen w

/-- How the process ends. -/
inductive Ending where
  | exited
  | crashed
  | blocked
  deriving DecidableEq

/-- A finished run of `main`. -/
structure Run where
  trace : List Event
  DB : DBPtr
  err : GoError
  ending : Ending

/-- Running the deferred `Close` calls, most recent first, when `main` returns
or panics.  A deferred call that panics does not stop the remaining ones. -/
def runDeferred (w : World) : List DBPtr → Bool → State → Run
  | [], panicking, s =>
    { trace := s.trace, DB := s.DB, err := s.err,
      ending := if panicking then .crashed else .exited }
  | h :: rest, panicking, s =>
    match extCall .Close [.db h] (w.Close h) (fun e => [.error e]) s with
    | .next _ s1 => runDeferred w rest panicking s1
    | .panic s1 => runDeferred w rest true s1
    | .hang s1 => { trace := s1.trace, DB := s1.DB, err := s1.err, ending := .blocked }

/-- What happens when the body of `main` is left: on a return or a panic the
deferred calls run; a call that never returned leaves nothing to run. -/
def finish (w : World) : Flow Unit → Run
  | .next _ s => runDeferred w s.deferred false s
  | .panic s => runDeferred w s.deferred true s
  | .hang s => { trace := s.trace, DB := s.DB, err := s.err, ending := .blocked }

/-- Function `main`, started with `Config.DB = db0`: the body, then the
deferred calls. -/
def main (w : World) (db0 : DBPtr) : Run :=
  finish w (mainBody w (State.init db0))

/-! ## Reading a trace -/

/-- Argument lists of the calls to `f`, in the order they were made. -/
def callsTo (f : Fn) : List Event → List (List Val)
  | [] => []
  | .call g a :: tr => if g = f then a :: callsTo f tr else callsTo f tr
  | _ :: tr => callsTo f tr

/-- The functions called, in the order they were called. -/
def callOrder : List Event → List Fn
  | [] => []
  | .call g _ :: tr => g :: callOrder tr
  | _ :: tr => callOrder tr

/-- The receivers of the method calls made on a database handle, in order. -/
def receivers : List Event → List DBPtr
  | [] => []
  | .call _ (.db p :: _) :: tr => p :: receivers tr
  | _ :: tr => receivers tr

/-- The startup calls: every call except the deferred `Close`. -/
def startupCalls (tr : List Event) : List Fn :=
  (callOrder tr).filter (fun f => f ≠ Fn.Close)

/-- The order in which `main.go` lists the startup calls. -/
def startupOrder : List Fn :=
  [.BuildDBConfig, .DbURL, .Open, .AutoMigrate, .SetupRouter, .Run]

/-- What was written to standard output, in order. -/
def output : List Event → List String
  | [] => []
  | .stdout text :: tr => text :: output tr
  | _ :: tr => output tr

/-- The events strictly before the first occurrence of `ev`. -/
def upTo (ev : Event) : List Event → List Event
  | [] => []
  | x :: tr => if x = ev then [] else x :: upTo ev tr

/-- The events after the first occurrence of `ev`. -/
def since (ev : Event) : List Event → List Event
  | [] => []
  | x :: tr => if x = ev then tr else since ev tr

/-- The line `main` prints for an error whose text is `msg`. -/
def statusLine (msg : String) : String :=
  "status: " ++ " " ++ msg ++ "\n"

/-- The world `w`, except that `gorm.Open` reports no error. -/
def World.openSucceeding (w : World) : World :=
  { w with
    Open := fun dialect source db =>
      match w.Open dialect source db with
      | ⟨.returns res, d⟩ => ⟨.returns (res.1, none), d⟩
      | other => other }

/-- The world `w`, except that `Run`, when it returns, returns `e`. -/
def World.runReturning (w : World) (e : GoError) : World :=
  { w with
    Run := fun r addr db =>
      match w.Run r addr db with
      | ⟨.returns _, d⟩ => ⟨.returns e, d⟩
      | other => other }

/-! ## Sample worlds -/

/-- Every call returns; the database is reachable.  `SetupRouter` overwrites
`Config.DB`, and `Run` returns because the port is taken. -/
def okWorld : World where
  BuildDBConfig := fun db => ⟨.returns ⟨"localhost", 3306, "root", "secret", "todos"⟩, db⟩
  DbURL := fun c db => ⟨.returns (c.user ++ ":" ++ c.password ++ "@tcp(" ++ c.host ++ ")/" ++ c.dbName), db⟩
  Open := fun _ _ db => ⟨.returns (.ref 1, none), db⟩
  AutoMigrate := fun h _ db => ⟨.returns h, db⟩
  SetupRouter := fun _ => ⟨.returns (.ref 2), .ref 7⟩
  Run := fun _ _ db => ⟨.returns (some "listen tcp :8080: bind: address already in use"), db⟩
  Close := fun _ db => ⟨.returns none, db⟩

/-- As `okWorld`, but the database refuses the connection: `Open` returns a
handle together with an error. -/
def downWorld : World :=
  { okWorld with Open := fun _ _ db => ⟨.returns (.ref 1, some "connection refused"), db⟩ }

/-- As `okWorld`, but `Open` returns a nil handle with an error, and the
methods called on the nil handle panic. -/
def nilWorld : World :=
  { okWorld with
    Open := fun _ _ db => ⟨.returns (.nil, some "invalid database source"), db⟩
    AutoMigrate := fun h _ db => if h = .nil then ⟨.panics, db⟩ else ⟨.returns h, db⟩
    Close := fun h db => if h = .nil then ⟨.panics, db⟩ else ⟨.returns none, db⟩ }

/-- As `downWorld`, but the handle that comes with the error is unusable:
`AutoMigrate` panics when it tries to query through it. -/
def refusedWorld : World :=
  { downWorld with AutoMigrate := fun _ _ db => ⟨.panics, db⟩ }

/-- As `okWorld`, but the server keeps listening: `Run` never returns. -/
def servingWorld : World :=
  { okWorld with Run := fun _ _ db => ⟨.hangs, db⟩ }

/-! ## The CRUD handlers

The handlers that `Routes.SetupRouter` registers are in the `Routes` package,
which is not among the sources; `main.go` only calls `SetupRouter`.  They are
modelled from section 4.2 of the spec, over a table with an auto-assigned
primary key (sections 3 and 6).  Request bodies are taken as already decoded
and the database as answering every query, so the 400 and 500 responses of
section 7 do not occur. -/

/-- Modelled from the spec: the persisted state behind the handlers of the
missing `Routes` package, "a single table mirroring the Todo entity's
attributes, with an auto-assigned primary key and timestamp columns".
`lastId` is the last key the database assigned; keys start at 1. -/
structure Table where
  rows : List Todo
  lastId : Nat
  deriving DecidableEq

/-- Modelled from the spec: the table before any request, for the handlers of
the missing `Routes` package. -/
def Table.empty : Table :=
  { rows := [], lastId := 0 }

/-- Modelled from the spec: the result of a handler of the missing `Routes`
package that answers with "the matching record or a not-found signal". -/
inductive Response (α : Type) where
  | ok (v : α)
  | notFound
  deriving DecidableEq

/-- Modelled from the spec: the "new field values" of an update request to
the missing `Routes` package, "partial Todo fields": a field that is absent
is `none`. -/
structure Fields where
  title : Option String
  completed : Option Bool
  deriving DecidableEq

/-- Modelled from the spec: how the missing Update handler changes the
matching record: the fields given replace the old ones, the identifier stays
("immutable thereafter"), and the persistence layer maintains `updatedAt`. -/
def Fields.applyTo (f : Fields) (now : Nat) (r : Todo) : Todo :=
  { r with
    title := f.title.getD r.title
    completed := f.completed.getD r.completed
    updatedAt := now }

/-- Modelled from the spec: the Create handler of the missing `Routes`
package, which "accepts a representation of a new Todo (title, completed
flag) from the request body; persists it; returns the created record
including its assigned identifier".  `now` is the time of the request. -/
def create (t : Table) (now : Nat) (title : String) (completed : Bool) : Table × Todo :=
  let todo : Todo :=
    { id := t.lastId + 1, title := title, completed := completed,
      createdAt := now, updatedAt := now }
  ({ rows := t.rows ++ [todo], lastId := t.lastId + 1 }, todo)

/-- Modelled from the spec: the List handler of the missing `Routes` package,
which "returns all Todo records". -/
def list (t : Table) : List Todo :=
  t.rows

/-- Modelled from the spec: the Read-one handler of the missing `Routes`
package, which "accepts an identifier from the path; returns the matching
record or a not-found signal". -/
def readOne (t : Table) (id : Nat) : Response Todo :=
  match t.rows.find? (fun r => r.id = id) with
  | some r => .ok r
  | none => .notFound

/-- Modelled from the spec: the Update handler of the missing `Routes`
package, which "accepts an identifier and new field values; persists changes
to the matching record; returns the updated record or a not-found signal". -/
def update (t : Table) (now : Nat) (id : Nat) (f : Fields) : Table × Response Todo :=
  match readOne t id with
  | .notFound => (t, .notFound)
  | .ok r =>
    ({ t with rows := t.rows.map (fun x => if x.id = id then f.applyTo now x else x) },
      .ok (f.applyTo now r))

/-- Modelled from the spec: the Delete handler of the missing `Routes`
package, which "accepts an identifier; removes the matching record; returns a
success acknowledgment or a not-found signal". -/
def delete (t : Table) (id : Nat) : Table × Response Unit :=
  match readOne t id with
  | .notFound => (t, .notFound)
  | .ok _ => ({ t with rows := t.rows.filter (fun x => x.id ≠ id) }, .ok ())

/-- Modelled from the spec: a request to one of the five handlers of the
missing `Routes` package (the HTTP surface of section 6). -/
inductive Request where
  | create (now : Nat) (title : String) (completed : Bool)
  | list
  | readOne (id : Nat)
  | update (now : Nat) (id : Nat) (f : Fields)
  | delete (id : Nat)
  deriving DecidableEq

/-- Modelled from the spec: the table after the missing `Routes` handlers
served one request. -/
def serve (t : Table) : Request → Table
  | .create now title completed => (create t now title completed).1
  | .list => t
  | .readOne _ => t
  | .update now id f => (update t now id f).1
  | .delete id => (delete t id).1

/-- Modelled from the spec: the table after the missing `Routes` handlers
served a sequence of requests, oldest first. -/
def serveAll (t : Table) : List Request → Table
  | [] => t
  | q :: rest => serveAll (serve t q) rest

/-- Modelled from the spec: the identifiers the missing Create handler
returned while a sequence of requests was served. -/
def createdIds (t : Table) : List Request → List Nat
  | [] => []
  | .create now title completed :: rest =>
    (create t now title completed).2.id
      :: createdIds (serve t (.create now title completed)) rest
  | q :: rest => createdIds (serve t q) rest

/-- The table invariant: keys lie between 1 and the last key assigned, and no
two rows share a key. -/
def Table.WF (t : Table) : Prop :=
  (∀ r ∈ t.rows, 1 ≤ r.id ∧ r.id ≤ t.lastId) ∧ (t.rows.map (fun r => r.id)).Nodup

/-- Two todos are created, nothing else. -/
def sampleRequests : List Request :=
  [.create 10 "buy milk" false, .create 11 "walk the dog" false]

/-- The record the first request of `sampleRequests` creates. -/
def milk : Todo :=
  { id := 1, title := "buy milk", completed := false, createdAt := 10, updatedAt := 10 }

/-! ## Unfolding lemmas -/

theorem Prog.bind_eq {α β : Type} (m : Prog α) (k : α → Prog β) :
    (m >>= k) = Prog.seq m k := rfl

theorem Prog.pure_eq {α : Type} (v : α) : (pure v : Prog α) = fun s => Flow.next v s := rfl

theorem statusLine_split (msg : String) :
    statusLine msg = "status: " ++ (" " ++ msg ++ "\n") := by
  unfold statusLine
  simp only [String.append_assoc]

/-! ## Two sample runs -/

/-- The run of `okWorld`: every startup call in order, then `Run` returns and
the deferred `Close` is called on the handle `Open` returned, although
`Config.DB` was overwritten in between. -/
theorem okWorld_run :
    (main okWorld .nil).trace =
      [ .call .BuildDBConfig [],
        .ret .BuildDBConfig [.config ⟨"localhost", 3306, "root", "secret", "todos"⟩],
        .call .DbURL [.config ⟨"localhost", 3306, "root", "secret", "todos"⟩],
        .ret .DbURL [.str "root:secret@tcp(localhost)/todos"],
        .call .Open [.str "mysql", .str "root:secret@tcp(localhost)/todos"],
        .ret .Open [.db (.ref 1), .error none],
        .call .AutoMigrate [.db (.ref 1), .todoRef Todo.zero],
        .ret .AutoMigrate [.db (.ref 1)],
        .call .SetupRouter [],
        .ret .SetupRouter [.engine (.ref 2)],
        .call .Run [.engine (.ref 2)],
        .ret .Run [.error (some "listen tcp :8080: bind: address already in use")],
        .call .Close [.db (.ref 1)],
        .ret .Close [.error none] ]
    ∧ (main okWorld .nil).DB = .ref 7
    ∧ (main okWorld .nil).ending = .exited := by
  decide

/-- The run of `nilWorld`: the error is printed, `AutoMigrate` is called on
the nil handle and panics, and the deferred `Close` runs on the nil handle
while the panic unwinds; the routes are never registered. -/
theorem nilWorld_run :
    (main nilWorld .nil).trace =
      [ .call .BuildDBConfig [],
        .ret .BuildDBConfig [.config ⟨"localhost", 3306, "root", "secret", "todos"⟩],
        .call .DbURL [.config ⟨"localhost", 3306, "root", "secret", "todos"⟩],
        .ret .DbURL [.str "root:secret@tcp(localhost)/todos"],
        .call .Open [.str "mysql", .str "root:secret@tcp(localhost)/todos"],
        .ret .Open [.db .nil, .error (some "invalid database source")],
        .stdout "status:  invalid database source\n",
        .call .AutoMigrate [.db .nil, .todoRef Todo.zero],
        .panicked .AutoMigrate,
        .call .Close [.db .nil],
        .panicked .Close ]
    ∧ (main nilWorld .nil).ending = .crashed := by
  decide

/-- The run of `servingWorld`: `Run` never returns, so nothing is printed,
`main` never returns and the deferred `Close` is never called. -/
theorem servingWorld_run :
    callOrder (main servingWorld .nil).trace = startupOrder
    ∧ output (main servingWorld .nil).trace = []
    ∧ callsTo .Close (main servingWorld .nil).trace = []
    ∧ (main servingWorld .nil).ending = .blocked := by
  decide

/-! ## The startup sequence -/

set_option maxHeartbeats 4000000 in
/-- C1: in every run of `main` the startup calls are made in the order
`BuildDBConfig`, `DbURL`, `Open`, `AutoMigrate`, `SetupRouter`, `Run`: the
calls made are always an initial segment of that list.  Whatever `Open`
returns, `AutoMigrate` follows; once `AutoMigrate` has returned,
`SetupRouter` follows; once `SetupRouter` has returned, all six calls have
been made.  `AutoMigrate` is never called before `Open` has returned, and
`Run` never before `AutoMigrate` and `SetupRouter` have returned. -/
theorem startup_order (w : World) (db0 : DBPtr) :
    startupCalls (main w db0).trace <+: startupOrder
    ∧ (∀ res, Event.ret .Open res ∈ (main w db0).trace →
        startupOrder.take 4 <+: startupCalls (main w db0).trace)
    ∧ (∀ res, Event.ret .AutoMigrate res ∈ (main w db0).trace →
        startupOrder.take 5 <+: startupCalls (main w db0).trace)
    ∧ (∀ res, Event.ret .SetupRouter res ∈ (main w db0).trace →
        startupCalls (main w db0).trace = startupOrder)
    ∧ (∀ a, Event.call .AutoMigrate a ∈ (main w db0).trace →
        ∃ res, Event.ret .Open res ∈ upTo (Event.call .AutoMigrate a) (main w db0).trace)
    ∧ (∀ a, Event.call .Run a ∈ (main w db0).trace →
        (∃ res, Event.ret .AutoMigrate res ∈ upTo (Event.call .Run a) (main w db0).trace)
        ∧ ∃ res, Event.ret .SetupRouter res ∈ upTo (Event.call .Run a) (main w db0).trace) := by
  (rcases hB : w.BuildDBConfig db0 with ⟨(cfg | _ | _), dB⟩ <;>
    simp [main, finish, mainBody, afterOpen, stmtOpen, stmtReport, stmtDefer, stmtMigrate,
      stmtRoutes, stmtRun, extCall, Prog.seq, Prog.bind_eq, Prog.pure_eq, State.init,
      runDeferred, fmtPrintln, GoError.format, hB, startupCalls, callOrder, startupOrder, upTo] <;>
      try (decide)) <;>
  (rcases hU : w.DbURL cfg dB with ⟨(url | _ | _), dU⟩ <;>
    simp [hU, runDeferred, startupCalls, callOrder, startupOrder, upTo] <;>
      try (decide)) <;>
  (rcases hO : w.Open "mysql" url dU with ⟨(⟨h1, e0⟩ | _ | _), dO⟩ <;>
    simp [hO, runDeferred, startupCalls, callOrder, startupOrder, upTo] <;>
      try (decide)) <;>
  (rcases e0 with _ | m <;> simp [GoError.format, startupCalls, callOrder, startupOrder, upTo] <;>
      try (decide)) <;>
  (rcases hA : w.AutoMigrate h1 [Todo.zero] h1 with ⟨(a | _ | _), dA⟩ <;>
    simp [hA, runDeferred, extCall, startupCalls, callOrder, startupOrder, upTo] <;>
      try (decide)) <;>
  (try (rcases hC : w.Close h1 dA with ⟨(ce | _ | _), dC⟩ <;>
    simp [hC, startupCalls, callOrder, startupOrder, upTo] <;>
      try (decide))) <;>
  (rcases hS : w.SetupRouter dA with ⟨(r | _ | _), dS⟩ <;>
    simp [hS, runDeferred, extCall, startupCalls, callOrder, startupOrder, upTo] <;>
      try (decide)) <;>
  (try (rcases hC : w.Close h1 dS with ⟨(ce | _ | _), dC⟩ <;>
    simp [hC, startupCalls, callOrder, startupOrder, upTo] <;>
      try (decide))) <;>
  (rcases hR : w.Run r [] dS with ⟨(re | _ | _), dR⟩ <;>
    simp [hR, runDeferred, extCall, startupCalls, callOrder, startupOrder, upTo] <;>
      try (decide)) <;>
  (try (rcases hC : w.Close h1 dR with ⟨(ce | _ | _), dC⟩ <;>
    simp [hC, startupCalls, callOrder, startupOrder, upTo] <;>
      try (decide)))

/-- Witness for C1 in `okWorld`: `SetupRouter` returns and all six startup
calls are made in order. -/
theorem startup_order_witness :
    Event.ret .SetupRouter [.engine (.ref 2)] ∈ (main okWorld .nil).trace
    ∧ startupCalls (main okWorld .nil).trace = startupOrder :=
  ⟨by decide, (startup_order okWorld .nil).2.2.2.1 [.engine (.ref 2)] (by decide)⟩

set_option maxHeartbeats 4000000 in
/-- C2, as amended: a failed `gorm.Open` is not fatal to `main` itself.  In
every run in which `Open` returns the handle `h` with the non-nil error
`msg`, `main` prints exactly the line `status: ` followed by a space, the
error and a newline, and what happens after that line is what happens after
`Open` in the run where `Open` returns the same handle without an error, with
the same ending.  `AutoMigrate` is called; `SetupRouter` is called provided
`AutoMigrate` returns, `Run` provided `SetupRouter` returns, and `main` does
not exit unless `Run` has returned. -/
theorem open_failure_not_fatal (w : World) (db0 h : DBPtr) (msg : String)
    (hopen : Event.ret .Open [.db h, .error (some msg)] ∈ (main w db0).trace) :
    output (main w db0).trace = [statusLine msg]
    ∧ statusLine msg = "status: " ++ (" " ++ msg ++ "\n")
    ∧ since (Event.ret .Open [.db h, .error (some msg)]) (main w db0).trace
        = Event.stdout (statusLine msg) ::
            since (Event.ret .Open [.db h, .error none]) (main w.openSucceeding db0).trace
    ∧ (main w db0).ending = (main w.openSucceeding db0).ending
    ∧ Event.call .AutoMigrate [.db h, .todoRef Todo.zero] ∈ (main w db0).trace
    ∧ (∀ res, Event.ret .AutoMigrate res ∈ (main w db0).trace →
        Event.call .SetupRouter [] ∈ (main w db0).trace)
    ∧ (∀ r, Event.ret .SetupRouter [.engine r] ∈ (main w db0).trace →
        Event.call .Run [.engine r] ∈ (main w db0).trace)
    ∧ ((main w db0).ending = .exited → ∃ res, Event.ret .Run res ∈ (main w db0).trace) := by
  refine ⟨?_, statusLine_split msg, ?_⟩ <;> revert hopen <;>
  (rcases hB : w.BuildDBConfig db0 with ⟨(cfg | _ | _), dB⟩ <;>
    simp [main, finish, mainBody, afterOpen, stmtOpen, stmtReport, stmtDefer, stmtMigrate,
      stmtRoutes, stmtRun, extCall, Prog.seq, Prog.bind_eq, Prog.pure_eq, State.init,
      runDeferred, fmtPrintln, GoError.format, hB, World.openSucceeding, output, since, statusLine] <;>
      try (intros; subst_vars; simp [output, since])) <;>
  (rcases hU : w.DbURL cfg dB with ⟨(url | _ | _), dU⟩ <;>
    simp [hU, runDeferred, output, since, statusLine] <;>
      try (intros; subst_vars; simp [output, since])) <;>
  (rcases hO : w.Open "mysql" url dU with ⟨(⟨h1, e0⟩ | _ | _), dO⟩ <;>
    simp [hO, runDeferred, output, since, statusLine] <;>
      try (intros; subst_vars; simp [output, since])) <;>
  (rcases e0 with _ | m <;> simp [GoError.format, output, since, statusLine] <;>
      try (intros; subst_vars; simp [output, since])) <;>
  (rcases hA : w.AutoMigrate h1 [Todo.zero] h1 with ⟨(a | _ | _), dA⟩ <;>
    simp [hA, runDeferred, extCall, output, since, statusLine] <;>
      try (intros; subst_vars; simp [output, since])) <;>
  (try (rcases hC : w.Close h1 dA with ⟨(ce | _ | _), dC⟩ <;>
    simp [hC, output, since, statusLine] <;>
      try (intros; subst_vars; simp [output, since]))) <;>
  (rcases hS : w.SetupRouter dA with ⟨(r | _ | _), dS⟩ <;>
    simp [hS, runDeferred, extCall, output, since, statusLine] <;>
      try (intros; subst_vars; simp [output, since])) <;>
  (try (rcases hC : w.Close h1 dS with ⟨(ce | _ | _), dC⟩ <;>
    simp [hC, output, since, statusLine] <;>
      try (intros; subst_vars; simp [output, since]))) <;>
  (rcases hR : w.Run r [] dS with ⟨(re | _ | _), dR⟩ <;>
    simp [hR, runDeferred, extCall, output, since, statusLine] <;>
      try (intros; subst_vars; simp [output, since])) <;>
  (try (rcases hC : w.Close h1 dR with ⟨(ce | _ | _), dC⟩ <;>
    simp [hC, output, since, statusLine] <;>
      try (intros; subst_vars; simp [output, since])))

/-- Witness for C2 in `downWorld`: `Open` returns an error, the line is
printed and the server is still started. -/
theorem open_failure_not_fatal_witness :
    Event.ret .Open [.db (.ref 1), .error (some "connection refused")]
        ∈ (main downWorld .nil).trace
    ∧ output (main downWorld .nil).trace = [statusLine "connection refused"]
    ∧ Event.call .Run [.engine (.ref 2)] ∈ (main downWorld .nil).trace :=
  ⟨by decide,
    (open_failure_not_fatal downWorld .nil (.ref 1) "connection refused" (by decide)).1,
    (open_failure_not_fatal downWorld .nil (.ref 1) "connection refused"
      (by decide)).2.2.2.2.2.2.1 (.ref 2) (by decide)⟩

/-- C2, counterexample to the claim as stated: in `refusedWorld` `Open`
returns a handle with a non-nil error and the error is printed, but
`AutoMigrate` panics on that handle, so `SetupRouter` and `Run` are never
called: the run ends in a crash before `r.Run`, after the deferred `Close`. -/
theorem open_failure_aborts :
    Event.ret .Open [.db (.ref 1), .error (some "connection refused")]
        ∈ (main refusedWorld .nil).trace
    ∧ output (main refusedWorld .nil).trace = [statusLine "connection refused"]
    ∧ callsTo .AutoMigrate (main refusedWorld .nil).trace
        = [[.db (.ref 1), .todoRef Todo.zero]]
    ∧ Event.panicked .AutoMigrate ∈ (main refusedWorld .nil).trace
    ∧ callsTo .SetupRouter (main refusedWorld .nil).trace = []
    ∧ callsTo .Run (main refusedWorld .nil).trace = []
    ∧ (main refusedWorld .nil).ending = .crashed := by
  decide

set_option maxHeartbeats 4000000 in
/-- C3: `main` migrates the schema of `Todo` and nothing else.  In every run
`AutoMigrate` is called at most once, and exactly once as soon as `Open` has
returned; its receiver is the handle `Open` returned, its only argument a
pointer to a zero-valued `Models.Todo`; the statement calls it on whatever
`Config.DB` holds at that moment; and the only methods `main` calls on a
database handle are `AutoMigrate` and the deferred `Close`. -/
theorem automigrate_once (w : World) (db0 : DBPtr) :
    (callsTo .AutoMigrate (main w db0).trace = []
      ∨ ∃ h, callsTo .AutoMigrate (main w db0).trace = [[.db h, .todoRef Todo.zero]])
    ∧ (∀ h e, Event.ret .Open [.db h, .error e] ∈ (main w db0).trace →
        callsTo .AutoMigrate (main w db0).trace = [[.db h, .todoRef Todo.zero]])
    ∧ (∀ s : State, ∃ rest, (stmtMigrate w s).state.trace
        = s.trace ++ Event.call .AutoMigrate [.db s.DB, .todoRef Todo.zero] :: rest)
    ∧ (∀ f p a, Event.call f (Val.db p :: a) ∈ (main w db0).trace →
        f = .AutoMigrate ∨ f = .Close) := by
  refine ⟨?_, ?_, ?_, ?_⟩
  rotate_left 2
  · intro s
    rcases hA : w.AutoMigrate s.DB [Todo.zero] s.DB with ⟨(a | _ | _), dA⟩ <;>
      simp [stmtMigrate, extCall, Prog.seq, Prog.bind_eq, Prog.pure_eq, Flow.state, hA]
  all_goals
    (rcases hB : w.BuildDBConfig db0 with ⟨(cfg | _ | _), dB⟩ <;>
      simp [main, finish, mainBody, afterOpen, stmtOpen, stmtReport, stmtDefer, stmtMigrate,
        stmtRoutes, stmtRun, extCall, Prog.seq, Prog.bind_eq, Prog.pure_eq, State.init,
        runDeferred, fmtPrintln, GoError.format, hB, callsTo] <;>
        try (tauto)) <;>
    (rcases hU : w.DbURL cfg dB with ⟨(url | _ | _), dU⟩ <;>
      simp [hU, runDeferred, callsTo] <;>
        try (tauto)) <;>
    (rcases hO : w.Open "mysql" url dU with ⟨(⟨h1, e0⟩ | _ | _), dO⟩ <;>
      simp [hO, runDeferred, callsTo] <;>
        try (tauto)) <;>
    (rcases e0 with _ | m <;> simp [GoError.format, callsTo] <;>
        try (tauto)) <;>
    (rcases hA : w.AutoMigrate h1 [Todo.zero] h1 with ⟨(a | _ | _), dA⟩ <;>
      simp [hA, runDeferred, extCall, callsTo] <;>
        try (tauto)) <;>
    (try (rcases hC : w.Close h1 dA with ⟨(ce | _ | _), dC⟩ <;>
      simp [hC, callsTo] <;>
        try (tauto))) <;>
    (rcases hS : w.SetupRouter dA with ⟨(r | _ | _), dS⟩ <;>
      simp [hS, runDeferred, extCall, callsTo] <;>
        try (tauto)) <;>
    (try (rcases hC : w.Close h1 dS with ⟨(ce | _ | _), dC⟩ <;>
      simp [hC, callsTo] <;>
        try (tauto))) <;>
    (rcases hR : w.Run r [] dS with ⟨(re | _ | _), dR⟩ <;>
      simp [hR, runDeferred, extCall, callsTo] <;>
        try (tauto)) <;>
    (try (rcases hC : w.Close h1 dR with ⟨(ce | _ | _), dC⟩ <;>
      simp [hC, callsTo] <;>
        try (tauto)))

/-- Witness for C3 in `okWorld`: `Open` returns and `AutoMigrate` is called
once, on the handle returned, with the zero-valued `Todo`. -/
theorem automigrate_once_witness :
    Event.ret .Open [.db (.ref 1), .error none] ∈ (main okWorld .nil).trace
    ∧ callsTo .AutoMigrate (main okWorld .nil).trace = [[.db (.ref 1), .todoRef Todo.zero]] :=
  ⟨by decide, (automigrate_once okWorld .nil).2.1 (.ref 1) none (by decide)⟩

set_option maxHeartbeats 4000000 in
/-- C4: `main` opens one connection, from the assembled connection string.
In every run `BuildDBConfig` is called exactly once and `gorm.Open` at most
once.  When `BuildDBConfig` returns `cfg` and `DbURL`, called on `cfg`,
returns `url`, then `DbURL` was called once, on `cfg`, and `Open` is called
exactly once, with dialect `mysql` and source `url`.  When `Open` then
returns the handle `h` and the error `e`, the first statement of `main` ends
with `Config.DB = h` and `err = e`, with no event after the return of `Open`
and nothing deferred yet.  The rest of `main` runs from that state: `err`
still holds `e` at the end, every method called on a database handle has
receiver `h` and there is at least one, and the output is the status line of
`e` when `e` is non-nil and nothing otherwise.  The same holds when the
returns are read off the trace instead of the environment. -/
theorem open_once (w : World) (db0 : DBPtr) :
    (callsTo .Open (main w db0).trace).length ≤ 1
    ∧ (∀ cfg url, Event.ret .BuildDBConfig [.config cfg] ∈ (main w db0).trace →
        Event.ret .DbURL [.str url] ∈ (main w db0).trace →
        callsTo .BuildDBConfig (main w db0).trace = [[]]
        ∧ callsTo .DbURL (main w db0).trace = [[.config cfg]]
        ∧ callsTo .Open (main w db0).trace = [[.str "mysql", .str url]])
    ∧ (∀ h e, Event.ret .Open [.db h, .error e] ∈ (main w db0).trace →
        ∃ s, stmtOpen w (State.init db0) = Flow.next () s
          ∧ s.DB = h ∧ s.err = e ∧ s.deferred = []
          ∧ s.trace = upTo (Event.ret .Open [.db h, .error e]) (main w db0).trace
              ++ [Event.ret .Open [.db h, .error e]]
          ∧ main w db0 = finish w (afterOpen w s)
          ∧ (main w db0).err = e)
    ∧ callsTo .BuildDBConfig (main w db0).trace = [[]]
    ∧ (∀ cfg d1 url d2, w.BuildDBConfig db0 = ⟨.returns cfg, d1⟩ →
        w.DbURL cfg d1 = ⟨.returns url, d2⟩ →
        callsTo .DbURL (main w db0).trace = [[.config cfg]]
        ∧ callsTo .Open (main w db0).trace = [[.str "mysql", .str url]])
    ∧ (∀ cfg d1 url d2 h e d3, w.BuildDBConfig db0 = ⟨.returns cfg, d1⟩ →
        w.DbURL cfg d1 = ⟨.returns url, d2⟩ →
        w.Open "mysql" url d2 = ⟨.returns (h, e), d3⟩ →
        stmtOpen w (State.init db0) = Flow.next ()
            { DB := h, err := e, deferred := [],
              trace :=
                [ .call .BuildDBConfig [], .ret .BuildDBConfig [.config cfg],
                  .call .DbURL [.config cfg], .ret .DbURL [.str url],
                  .call .Open [.str "mysql", .str url], .ret .Open [.db h, .error e] ] }
        ∧ Event.ret .Open [.db h, .error e] ∈ (main w db0).trace
        ∧ (main w db0).err = e
        ∧ receivers (main w db0).trace ≠ []
        ∧ (∀ p ∈ receivers (main w db0).trace, p = h)
        ∧ output (main w db0).trace = (e.map statusLine).toList) := by
  refine ⟨?_, ?_, ?_, ?_, ?_, ?_⟩
  rotate_left 4
  · intro cfg d1 url d2 hB hU
    (simp [main, finish, mainBody, afterOpen, stmtOpen, stmtReport, stmtDefer, stmtMigrate,
        stmtRoutes, stmtRun, extCall, Prog.seq, Prog.bind_eq, Prog.pure_eq, State.init,
        runDeferred, fmtPrintln, GoError.format, hB, hU, callsTo] <;>
        try (tauto)) <;>
    (rcases hO : w.Open "mysql" url d2 with ⟨(⟨h, e⟩ | _ | _), d3⟩ <;>
      simp [hO, runDeferred, callsTo] <;>
        try (tauto)) <;>
    (rcases e with _ | m <;> simp [GoError.format, callsTo] <;>
        try (tauto)) <;>
    (rcases hA : w.AutoMigrate h [Todo.zero] h with ⟨(a | _ | _), dA⟩ <;>
      simp [hA, runDeferred, extCall, callsTo] <;>
        try (tauto)) <;>
    (try (rcases hC : w.Close h dA with ⟨(ce | _ | _), dC⟩ <;>
      simp [hC, callsTo] <;>
        try (tauto))) <;>
    (rcases hS : w.SetupRouter dA with ⟨(r | _ | _), dS⟩ <;>
      simp [hS, runDeferred, extCall, callsTo] <;>
        try (tauto)) <;>
    (try (rcases hC : w.Close h dS with ⟨(ce | _ | _), dC⟩ <;>
      simp [hC, callsTo] <;>
        try (tauto))) <;>
    (rcases hR : w.Run r [] dS with ⟨(re | _ | _), dR⟩ <;>
      simp [hR, runDeferred, extCall, callsTo] <;>
        try (tauto)) <;>
    (try (rcases hC : w.Close h dR with ⟨(ce | _ | _), dC⟩ <;>
      simp [hC, callsTo] <;>
        try (tauto)))
  · intro cfg d1 url d2 h e d3 hB hU hO
    refine ⟨by simp [stmtOpen, extCall, Prog.seq, Prog.bind_eq, State.init, hB, hU, hO], ?_⟩
    (simp [main, finish, mainBody, afterOpen, stmtOpen, stmtReport, stmtDefer, stmtMigrate,
        stmtRoutes, stmtRun, extCall, Prog.seq, Prog.bind_eq, Prog.pure_eq, State.init,
        runDeferred, fmtPrintln, GoError.format, hB, hU, hO, receivers, output, statusLine] <;>
        try (intros; subst_vars; simp [receivers, output])) <;>
    (rcases e with _ | m <;> simp [GoError.format, receivers, output, statusLine] <;>
        try (intros; subst_vars; simp [receivers, output])) <;>
    (rcases hA : w.AutoMigrate h [Todo.zero] h with ⟨(a | _ | _), dA⟩ <;>
      simp [hA, runDeferred, extCall, receivers, output, statusLine] <;>
        try (intros; subst_vars; simp [receivers, output])) <;>
    (try (rcases hC : w.Close h dA with ⟨(ce | _ | _), dC⟩ <;>
      simp [hC, receivers, output, statusLine] <;>
        try (intros; subst_vars; simp [receivers, output]))) <;>
    (rcases hS : w.SetupRouter dA with ⟨(r | _ | _), dS⟩ <;>
      simp [hS, runDeferred, extCall, receivers, output, statusLine] <;>
        try (intros; subst_vars; simp [receivers, output])) <;>
    (try (rcases hC : w.Close h dS with ⟨(ce | _ | _), dC⟩ <;>
      simp [hC, receivers, output, statusLine] <;>
        try (intros; subst_vars; simp [receivers, output]))) <;>
    (rcases hR : w.Run r [] dS with ⟨(re | _ | _), dR⟩ <;>
      simp [hR, runDeferred, extCall, receivers, output, statusLine] <;>
        try (intros; subst_vars; simp [receivers, output])) <;>
    (try (rcases hC : w.Close h dR with ⟨(ce | _ | _), dC⟩ <;>
      simp [hC, receivers, output, statusLine] <;>
        try (intros; subst_vars; simp [receivers, output])))
  all_goals
    (rcases hB : w.BuildDBConfig db0 with ⟨(cfg | _ | _), dB⟩ <;>
      simp [main, finish, mainBody, afterOpen, stmtOpen, stmtReport, stmtDefer, stmtMigrate,
        stmtRoutes, stmtRun, extCall, Prog.seq, Prog.bind_eq, Prog.pure_eq, State.init,
        runDeferred, fmtPrintln, GoError.format, hB, callsTo, upTo] <;>
        try (tauto)) <;>
    (rcases hU : w.DbURL cfg dB with ⟨(url | _ | _), dU⟩ <;>
      simp [hU, runDeferred, callsTo, upTo] <;>
        try (tauto)) <;>
    (rcases hO : w.Open "mysql" url dU with ⟨(⟨h1, e0⟩ | _ | _), dO⟩ <;>
      simp [hO, runDeferred, callsTo, upTo] <;>
        try (tauto)) <;>
    (rcases e0 with _ | m <;> simp [GoError.format, callsTo, upTo] <;>
        try (tauto)) <;>
    (rcases hA : w.AutoMigrate h1 [Todo.zero] h1 with ⟨(a | _ | _), dA⟩ <;>
      simp [hA, runDeferred, extCall, callsTo, upTo] <;>
        try (tauto)) <;>
    (try (rcases hC : w.Close h1 dA with ⟨(ce | _ | _), dC⟩ <;>
      simp [hC, callsTo, upTo] <;>
        try (tauto))) <;>
    (rcases hS : w.SetupRouter dA with ⟨(r | _ | _), dS⟩ <;>
      simp [hS, runDeferred, extCall, callsTo, upTo] <;>
        try (tauto)) <;>
    (try (rcases hC : w.Close h1 dS with ⟨(ce | _ | _), dC⟩ <;>
      simp [hC, callsTo, upTo] <;>
        try (tauto))) <;>
    (rcases hR : w.Run r [] dS with ⟨(re | _ | _), dR⟩ <;>
      simp [hR, runDeferred, extCall, callsTo, upTo] <;>
        try (tauto)) <;>
    (try (rcases hC : w.Close h1 dR with ⟨(ce | _ | _), dC⟩ <;>
      simp [hC, callsTo, upTo] <;>
        try (tauto)))

/-- Witness for C4 in `downWorld`: the three calls of the first statement
return, `Open` is called once with the assembled string, and the statement
leaves the handle in `Config.DB` and the error in `err`. -/
theorem open_once_witness :
    stmtOpen downWorld (State.init .nil) = Flow.next ()
        { DB := .ref 1, err := some "connection refused", deferred := [],
          trace :=
            [ .call .BuildDBConfig [],
              .ret .BuildDBConfig [.config ⟨"localhost", 3306, "root", "secret", "todos"⟩],
              .call .DbURL [.config ⟨"localhost", 3306, "root", "secret", "todos"⟩],
              .ret .DbURL [.str "root:secret@tcp(localhost)/todos"],
              .call .Open [.str "mysql", .str "root:secret@tcp(localhost)/todos"],
              .ret .Open [.db (.ref 1), .error (some "connection refused")] ] }
    ∧ callsTo .Open (main downWorld .nil).trace
        = [[.str "mysql", .str "root:secret@tcp(localhost)/todos"]]
    ∧ (main downWorld .nil).err = some "connection refused"
    ∧ output (main downWorld .nil).trace = [statusLine "connection refused"] :=
  ⟨((open_once downWorld .nil).2.2.2.2.2 ⟨"localhost", 3306, "root", "secret", "todos"⟩ .nil
      "root:secret@tcp(localhost)/todos" .nil (.ref 1) (some "connection refused") .nil
      rfl rfl rfl).1,
    ((open_once downWorld .nil).2.2.2.2.1 ⟨"localhost", 3306, "root", "secret", "todos"⟩ .nil
      "root:secret@tcp(localhost)/todos" .nil rfl rfl).2,
    ((open_once downWorld .nil).2.2.2.2.2 ⟨"localhost", 3306, "root", "secret", "todos"⟩ .nil
      "root:secret@tcp(localhost)/todos" .nil (.ref 1) (some "connection refused") .nil
      rfl rfl rfl).2.2.1,
    ((open_once downWorld .nil).2.2.2.2.2 ⟨"localhost", 3306, "root", "secret", "todos"⟩ .nil
      "root:secret@tcp(localhost)/todos" .nil (.ref 1) (some "connection refused") .nil
      rfl rfl rfl).2.2.2.2.2⟩

set_option maxHeartbeats 4000000 in
/-- C9: `main` prints the status line exactly when `gorm.Open` returned a
non-nil error.  Something is written to standard output if and only if `Open`
returned an error; when `Open` returned no error nothing is written; when it
returned the error `msg`, exactly one line is written, the status line for
`msg`, and it is written before `AutoMigrate` is called.  The value `Run`
returns is dropped: replacing it by any other value changes neither the
output, nor the calls made, nor how the process ends. -/
theorem status_line_iff (w : World) (db0 : DBPtr) :
    (output (main w db0).trace ≠ [] ↔
        ∃ h msg, Event.ret .Open [.db h, .error (some msg)] ∈ (main w db0).trace)
    ∧ (∀ h, Event.ret .Open [.db h, .error none] ∈ (main w db0).trace →
        output (main w db0).trace = [])
    ∧ (∀ h msg, Event.ret .Open [.db h, .error (some msg)] ∈ (main w db0).trace →
        output (main w db0).trace = [statusLine msg]
        ∧ Event.call .AutoMigrate [.db h, .todoRef Todo.zero] ∈ (main w db0).trace
        ∧ output (upTo (Event.call .AutoMigrate [.db h, .todoRef Todo.zero]) (main w db0).trace)
            = [statusLine msg])
    ∧ (∀ e, output (main (w.runReturning e) db0).trace = output (main w db0).trace
        ∧ callOrder (main (w.runReturning e) db0).trace = callOrder (main w db0).trace
        ∧ (main (w.runReturning e) db0).ending = (main w db0).ending) := by
  (rcases hB : w.BuildDBConfig db0 with ⟨(cfg | _ | _), dB⟩ <;>
    simp [main, finish, mainBody, afterOpen, stmtOpen, stmtReport, stmtDefer, stmtMigrate,
      stmtRoutes, stmtRun, extCall, Prog.seq, Prog.bind_eq, Prog.pure_eq, State.init,
      runDeferred, fmtPrintln, GoError.format, hB, World.runReturning, output, upTo, callOrder, statusLine] <;>
      try (intros; subst_vars; simp [output, upTo, callOrder])) <;>
  (rcases hU : w.DbURL cfg dB with ⟨(url | _ | _), dU⟩ <;>
    simp [hU, runDeferred, output, upTo, callOrder, statusLine] <;>
      try (intros; subst_vars; simp [output, upTo, callOrder])) <;>
  (rcases hO : w.Open "mysql" url dU with ⟨(⟨h1, e0⟩ | _ | _), dO⟩ <;>
    simp [hO, runDeferred, output, upTo, callOrder, statusLine] <;>
      try (intros; subst_vars; simp [output, upTo, callOrder])) <;>
  (rcases e0 with _ | m <;> simp [GoError.format, output, upTo, callOrder, statusLine] <;>
      try (intros; subst_vars; simp [output, upTo, callOrder])) <;>
  (rcases hA : w.AutoMigrate h1 [Todo.zero] h1 with ⟨(a | _ | _), dA⟩ <;>
    simp [hA, runDeferred, extCall, output, upTo, callOrder, statusLine] <;>
      try (intros; subst_vars; simp [output, upTo, callOrder])) <;>
  (try (rcases hC : w.Close h1 dA with ⟨(ce | _ | _), dC⟩ <;>
    simp [hC, output, upTo, callOrder, statusLine] <;>
      try (intros; subst_vars; simp [output, upTo, callOrder]))) <;>
  (rcases hS : w.SetupRouter dA with ⟨(r | _ | _), dS⟩ <;>
    simp [hS, runDeferred, extCall, output, upTo, callOrder, statusLine] <;>
      try (intros; subst_vars; simp [output, upTo, callOrder])) <;>
  (try (rcases hC : w.Close h1 dS with ⟨(ce | _ | _), dC⟩ <;>
    simp [hC, output, upTo, callOrder, statusLine] <;>
      try (intros; subst_vars; simp [output, upTo, callOrder]))) <;>
  (rcases hR : w.Run r [] dS with ⟨(re | _ | _), dR⟩ <;>
    simp [hR, runDeferred, extCall, output, upTo, callOrder, statusLine] <;>
      try (intros; subst_vars; simp [output, upTo, callOrder])) <;>
  (try (rcases hC : w.Close h1 dR with ⟨(ce | _ | _), dC⟩ <;>
    simp [hC, output, upTo, callOrder, statusLine] <;>
      try (intros; subst_vars; simp [output, upTo, callOrder])))

/-- Witness for C9 in `okWorld`: `Open` returns no error and nothing is
printed, although `Run` returns an error. -/
theorem status_line_iff_witness :
    Event.ret .Open [.db (.ref 1), .error none] ∈ (main okWorld .nil).trace
    ∧ output (main okWorld .nil).trace = [] :=
  ⟨by decide, (status_line_iff okWorld .nil).2.1 (.ref 1) (by decide)⟩

set_option maxHeartbeats 4000000 in
/-- C10: `main` uses the result of `gorm.Open` unguarded.  In every run in
which `Open` has returned the handle `h` and the error `e`, nil or not,
`AutoMigrate` is called once with receiver `h`, the deferred `Close`, when it
is called, has receiver `h` (and it is called unless a call never returned),
and every method `main` calls on a database handle has receiver `h`; so the
receivers are all non-nil exactly when `h` is non-nil.  When `h` is nil and
`e` is the error `msg`, the status line for `msg` is printed and right after
it `AutoMigrate` is called on the nil handle. -/
theorem open_result_unguarded (w : World) (db0 h : DBPtr) (e : GoError)
    (hopen : Event.ret .Open [.db h, .error e] ∈ (main w db0).trace) :
    callsTo .AutoMigrate (main w db0).trace = [[.db h, .todoRef Todo.zero]]
    ∧ (callsTo .Close (main w db0).trace = [] ∨ callsTo .Close (main w db0).trace = [[.db h]])
    ∧ ((main w db0).ending ≠ .blocked → callsTo .Close (main w db0).trace = [[.db h]])
    ∧ (∀ p ∈ receivers (main w db0).trace, p = h)
    ∧ ((∀ p ∈ receivers (main w db0).trace, p ≠ .nil) ↔ h ≠ .nil)
    ∧ (∀ msg, h = .nil → e = some msg →
        (since (Event.ret .Open [.db h, .error e]) (main w db0).trace).take 2
          = [Event.stdout (statusLine msg), Event.call .AutoMigrate [.db .nil, .todoRef Todo.zero]]) := by
  have key : callsTo .AutoMigrate (main w db0).trace = [[.db h, .todoRef Todo.zero]]
      ∧ (callsTo .Close (main w db0).trace = [] ∨ callsTo .Close (main w db0).trace = [[.db h]])
      ∧ ((main w db0).ending ≠ .blocked → callsTo .Close (main w db0).trace = [[.db h]])
      ∧ (∀ p ∈ receivers (main w db0).trace, p = h)
      ∧ h ∈ receivers (main w db0).trace
      ∧ (∀ msg, h = .nil → e = some msg →
          (since (Event.ret .Open [.db h, .error e]) (main w db0).trace).take 2
            = [Event.stdout (statusLine msg),
                Event.call .AutoMigrate [.db .nil, .todoRef Todo.zero]]) := by
    revert hopen
    (rcases hB : w.BuildDBConfig db0 with ⟨(cfg | _ | _), dB⟩ <;>
      simp [main, finish, mainBody, afterOpen, stmtOpen, stmtReport, stmtDefer, stmtMigrate,
        stmtRoutes, stmtRun, extCall, Prog.seq, Prog.bind_eq, Prog.pure_eq, State.init,
        runDeferred, fmtPrintln, GoError.format, hB, callsTo, since, statusLine, receivers] <;>
        try (intros; subst_vars; simp [callsTo, since, receivers])) <;>
    (rcases hU : w.DbURL cfg dB with ⟨(url | _ | _), dU⟩ <;>
      simp [hU, runDeferred, callsTo, since, statusLine, receivers] <;>
        try (intros; subst_vars; simp [callsTo, since, receivers])) <;>
    (rcases hO : w.Open "mysql" url dU with ⟨(⟨h1, e0⟩ | _ | _), dO⟩ <;>
      simp [hO, runDeferred, callsTo, since, statusLine, receivers] <;>
        try (intros; subst_vars; simp [callsTo, since, receivers])) <;>
    (rcases e0 with _ | m <;> simp [GoError.format, callsTo, since, statusLine, receivers] <;>
        try (intros; subst_vars; simp [callsTo, since, receivers])) <;>
    (rcases hA : w.AutoMigrate h1 [Todo.zero] h1 with ⟨(a | _ | _), dA⟩ <;>
      simp [hA, runDeferred, extCall, callsTo, since, statusLine, receivers] <;>
        try (intros; subst_vars; simp [callsTo, since, receivers])) <;>
    (try (rcases hC : w.Close h1 dA with ⟨(ce | _ | _), dC⟩ <;>
      simp [hC, callsTo, since, statusLine, receivers] <;>
        try (intros; subst_vars; simp [callsTo, since, receivers]))) <;>
    (rcases hS : w.SetupRouter dA with ⟨(r | _ | _), dS⟩ <;>
      simp [hS, runDeferred, extCall, callsTo, since, statusLine, receivers] <;>
        try (intros; subst_vars; simp [callsTo, since, receivers])) <;>
    (try (rcases hC : w.Close h1 dS with ⟨(ce | _ | _), dC⟩ <;>
      simp [hC, callsTo, since, statusLine, receivers] <;>
        try (intros; subst_vars; simp [callsTo, since, receivers]))) <;>
    (rcases hR : w.Run r [] dS with ⟨(re | _ | _), dR⟩ <;>
      simp [hR, runDeferred, extCall, callsTo, since, statusLine, receivers] <;>
        try (intros; subst_vars; simp [callsTo, since, receivers])) <;>
    (try (rcases hC : w.Close h1 dR with ⟨(ce | _ | _), dC⟩ <;>
      simp [hC, callsTo, since, statusLine, receivers] <;>
        try (intros; subst_vars; simp [callsTo, since, receivers])))
  obtain ⟨k1, k2, k3, k4, k5, k6⟩ := key
  refine ⟨k1, k2, k3, k4, ⟨fun hall => hall _ k5, fun hne p hp => ?_⟩, k6⟩
  rw [k4 p hp]
  exact hne

/-- Witness for C10 in `nilWorld`: `Open` returns a nil handle with an error,
and `AutoMigrate` is called on the nil handle right after the status line. -/
theorem open_result_unguarded_witness :
    Event.ret .Open [.db .nil, .error (some "invalid database source")]
        ∈ (main nilWorld .nil).trace
    ∧ callsTo .AutoMigrate (main nilWorld .nil).trace = [[.db .nil, .todoRef Todo.zero]]
    ∧ (since (Event.ret .Open [.db .nil, .error (some "invalid database source")])
          (main nilWorld .nil).trace).take 2
        = [Event.stdout (statusLine "invalid database source"),
            Event.call .AutoMigrate [.db .nil, .todoRef Todo.zero]] :=
  ⟨by decide,
    (open_result_unguarded nilWorld .nil .nil (some "invalid database source") (by decide)).1,
    (open_result_unguarded nilWorld .nil .nil (some "invalid database source")
      (by decide)).2.2.2.2.2 "invalid database source" rfl rfl⟩

/-! ## The CRUD handlers: invariant -/

theorem readOne_notFound_iff (t : Table) (id : Nat) :
    readOne t id = .notFound ↔ ∀ r ∈ t.rows, r.id ≠ id := by
  unfold readOne
  cases h : t.rows.find? (fun r => r.id = id) with
  | none => simpa using h
  | some r =>
    have hp := List.find?_some h
    have hm := List.mem_of_find?_eq_some h
    simp only [decide_eq_true_eq] at hp
    constructor
    · intro hc; cases hc
    · intro hall; exact absurd hp (hall r hm)

theorem readOne_ok_mem {t : Table} {id : Nat} {r : Todo} (h : readOne t id = .ok r) :
    r ∈ t.rows ∧ r.id = id := by
  unfold readOne at h
  cases hf : t.rows.find? (fun r => r.id = id) with
  | none => rw [hf] at h; cases h
  | some x =>
    rw [hf] at h
    cases h
    exact ⟨List.mem_of_find?_eq_some hf, by simpa using List.find?_some hf⟩

theorem find_of_nodup (l : List Todo) (r : Todo) (hn : (l.map (fun r => r.id)).Nodup)
    (hr : r ∈ l) : l.find? (fun x => x.id = r.id) = some r := by
  induction l with
  | nil => cases hr
  | cons a l ih =>
    rw [List.map_cons, List.nodup_cons] at hn
    rcases List.mem_cons.mp hr with rfl | hmem
    · simp
    · have hne : a.id ≠ r.id := by
        intro heq
        exact hn.1 (heq ▸ List.mem_map_of_mem (fun r => r.id) hmem)
      rw [List.find?_cons_of_neg _ (by simpa using hne)]
      exact ih hn.2 hmem

theorem readOne_of_mem {t : Table} (hwf : t.WF) {r : Todo} (hr : r ∈ t.rows) :
    readOne t r.id = .ok r := by
  unfold readOne
  rw [find_of_nodup t.rows r hwf.2 hr]

theorem wf_empty : Table.empty.WF := by
  simp [Table.WF, Table.empty]

theorem wf_create {t : Table} (hwf : t.WF) (now : Nat) (title : String) (completed : Bool) :
    (create t now title completed).1.WF := by
  obtain ⟨hb, hn⟩ := hwf
  refine ⟨?_, ?_⟩
  · intro r hr
    simp only [create, List.mem_append, List.mem_singleton] at hr
    rcases hr with hr | rfl
    · have := hb r hr
      exact ⟨this.1, Nat.le_succ_of_le this.2⟩
    · exact ⟨Nat.succ_le_succ (Nat.zero_le _), Nat.le_refl _⟩
  · simp only [create, List.map_append, List.map_cons, List.map_nil]
    rw [List.nodup_append]
    refine ⟨hn, List.nodup_singleton _, ?_⟩
    intro a ha hb2
    rw [List.mem_singleton] at hb2
    obtain ⟨r, hr, rfl⟩ := List.mem_map.mp ha
    have := (hb r hr).2
    omega

theorem map_id_update (l : List Todo) (now id : Nat) (f : Fields) :
    (l.map (fun x => if x.id = id then f.applyTo now x else x)).map (fun r => r.id)
      = l.map (fun r => r.id) := by
  induction l with
  | nil => rfl
  | cons a l ih =>
    simp only [List.map_cons, ih]
    congr 1
    split <;> rfl

theorem wf_update {t : Table} (hwf : t.WF) (now id : Nat) (f : Fields) :
    (update t now id f).1.WF := by
  unfold update
  cases readOne t id with
  | notFound => exact hwf
  | ok r =>
    refine ⟨?_, ?_⟩
    · intro x hx
      simp only [List.mem_map] at hx
      obtain ⟨y, hy, rfl⟩ := hx
      have := hwf.1 y hy
      split <;> simpa [Fields.applyTo] using this
    · show ((t.rows.map _).map _).Nodup
      rw [map_id_update]
      exact hwf.2

theorem wf_delete {t : Table} (hwf : t.WF) (id : Nat) : (delete t id).1.WF := by
  unfold delete
  cases readOne t id with
  | notFound => exact hwf
  | ok r =>
    refine ⟨?_, ?_⟩
    · intro x hx
      exact hwf.1 x (List.mem_filter.mp hx).1
    · exact (hwf.2.sublist ((List.filter_sublist _).map _))

theorem wf_serve {t : Table} (hwf : t.WF) (q : Request) : (serve t q).WF := by
  cases q with
  | create now title completed => exact wf_create hwf now title completed
  | list => exact hwf
  | readOne id => exact hwf
  | update now id f => exact wf_update hwf now id f
  | delete id => exact wf_delete hwf id

theorem wf_serveAll {t : Table} (hwf : t.WF) (reqs : List Request) : (serveAll t reqs).WF := by
  induction reqs generalizing t with
  | nil => exact hwf
  | cons q rest ih => exact ih (wf_serve hwf q)

/-- Every key in the table was there at the start or was returned by Create. -/
theorem id_origin (t : Table) (reqs : List Request) :
    ∀ r ∈ (serveAll t reqs).rows,
      r.id ∈ t.rows.map (fun r => r.id) ∨ r.id ∈ createdIds t reqs := by
  induction reqs generalizing t with
  | nil =>
    intro r hr
    exact Or.inl (List.mem_map_of_mem (fun r => r.id) hr)
  | cons q rest ih =>
    intro r hr
    have h1 := ih (serve t q) r hr
    cases q with
    | create now title completed =>
      simp only [createdIds, List.mem_cons]
      rcases h1 with h1 | h1
      · simp only [serve, create, List.map_append, List.map_cons, List.map_nil,
          List.mem_append, List.mem_singleton] at h1
        rcases h1 with h1 | h1
        · exact Or.inl h1
        · exact Or.inr (Or.inl h1)
      · exact Or.inr (Or.inr h1)
    | list => exact h1
    | readOne id => exact h1
    | update now id f =>
      simp only [createdIds]
      rcases h1 with h1 | h1
      · left
        simp only [serve, update] at h1
        cases hro : readOne t id with
        | notFound => simpa [hro] using h1
        | ok x =>
          rw [hro] at h1
          simp only at h1
          rw [map_id_update] at h1
          exact h1
      · exact Or.inr h1
    | delete id =>
      simp only [createdIds]
      rcases h1 with h1 | h1
      · left
        simp only [serve, delete] at h1
        cases hro : readOne t id with
        | notFound => simpa [hro] using h1
        | ok x =>
          rw [hro] at h1
          obtain ⟨y, hy, hyid⟩ := List.mem_map.mp h1
          exact List.mem_map.mpr ⟨y, (List.mem_filter.mp hy).1, hyid⟩
      · exact Or.inr h1

theorem length_filter_ne (l : List Todo) (r : Todo) (hn : (l.map (fun r => r.id)).Nodup)
    (hr : r ∈ l) : (l.filter (fun x => x.id ≠ r.id)).length + 1 = l.length := by
  induction l with
  | nil => cases hr
  | cons a l ih =>
    rw [List.map_cons, List.nodup_cons] at hn
    rcases List.mem_cons.mp hr with rfl | hmem
    · have hall : ∀ x ∈ l, x.id ≠ r.id := by
        intro x hx heq
        exact hn.1 (heq ▸ List.mem_map_of_mem (fun r => r.id) hx)
      have hfil : l.filter (fun x => x.id ≠ r.id) = l := by
        apply List.filter_eq_self.mpr
        intro x hx
        simpa using hall x hx
      rw [List.filter_cons_of_neg (by simp), hfil, List.length_cons]
    · have hne : a.id ≠ r.id := by
        intro heq
        exact hn.1 (heq ▸ List.mem_map_of_mem (fun r => r.id) hmem)
      have := ih hn.2 hmem
      rw [List.filter_cons_of_pos (by simpa using hne), List.length_cons, List.length_cons, this]

theorem ne_id_of_ne {t : Table} (hwf : t.WF) {x r : Todo} (hx : x ∈ t.rows) (hr : r ∈ t.rows)
    (hne : x ≠ r) : x.id ≠ r.id := by
  intro heq
  have h1 := readOne_of_mem hwf hx
  have h2 := readOne_of_mem hwf hr
  rw [heq, h2] at h1
  cases h1
  exact hne rfl

/-! ## The CRUD handlers: claims -/

/-- C6: create and read round trip on the modelled handlers.  After any
sequence of requests, creating a Todo with any title and completed flag
returns a record with a non-zero identifier and the same title and completed
values; reading that identifier right afterwards returns that very record;
and reading an identifier that no Create has returned answers not-found. -/
theorem create_read_roundtrip (reqs : List Request) (now : Nat) (title : String)
    (completed : Bool) :
    (create (serveAll Table.empty reqs) now title completed).2.id ≠ 0
    ∧ (create (serveAll Table.empty reqs) now title completed).2.title = title
    ∧ (create (serveAll Table.empty reqs) now title completed).2.completed = completed
    ∧ readOne (create (serveAll Table.empty reqs) now title completed).1
        (create (serveAll Table.empty reqs) now title completed).2.id
        = .ok (create (serveAll Table.empty reqs) now title completed).2
    ∧ (∀ id, id ∉ createdIds Table.empty reqs →
        readOne (serveAll Table.empty reqs) id = .notFound) := by
  have hwf : (serveAll Table.empty reqs).WF := wf_serveAll wf_empty reqs
  refine ⟨Nat.succ_ne_zero _, rfl, rfl, ?_, ?_⟩
  · apply readOne_of_mem (wf_create hwf now title completed)
    simp [create]
  · intro id hid
    rw [readOne_notFound_iff]
    intro r hr heq
    rcases id_origin Table.empty reqs r hr with h | h
    · simp [Table.empty] at h
    · exact hid (heq ▸ h)

/-- C7: delete removes a Todo on the modelled handlers.  After any sequence
of requests, for every record `r` in the table, deleting its identifier
succeeds; afterwards reading that identifier answers not-found, `r` and any
record with its identifier are absent from List, every other record that was
listed is still listed, and List is shorter by exactly one.  A delete
succeeds exactly for the identifiers of the records listed. -/
theorem delete_removes (reqs : List Request) (r : Todo)
    (hr : r ∈ list (serveAll Table.empty reqs)) :
    (delete (serveAll Table.empty reqs) r.id).2 = .ok ()
    ∧ readOne (delete (serveAll Table.empty reqs) r.id).1 r.id = .notFound
    ∧ r ∉ list (delete (serveAll Table.empty reqs) r.id).1
    ∧ (∀ x ∈ list (delete (serveAll Table.empty reqs) r.id).1, x.id ≠ r.id)
    ∧ (∀ x ∈ list (serveAll Table.empty reqs), x ≠ r →
        x ∈ list (delete (serveAll Table.empty reqs) r.id).1)
    ∧ (list (delete (serveAll Table.empty reqs) r.id).1).length + 1
        = (list (serveAll Table.empty reqs)).length
    ∧ (∀ id, (delete (serveAll Table.empty reqs) id).2 = .ok () ↔
        ∃ x ∈ list (serveAll Table.empty reqs), x.id = id) := by
  have hwf : (serveAll Table.empty reqs).WF := wf_serveAll wf_empty reqs
  have hro := readOne_of_mem hwf hr
  have hrows : (delete (serveAll Table.empty reqs) r.id).1.rows
      = (serveAll Table.empty reqs).rows.filter (fun x => x.id ≠ r.id) := by
    simp [delete, hro]
  have hnot : ∀ x ∈ list (delete (serveAll Table.empty reqs) r.id).1, x.id ≠ r.id := by
    intro x hx
    rw [list, hrows] at hx
    simpa using (List.mem_filter.mp hx).2
  refine ⟨by simp [delete, hro], ?_, ?_, hnot, ?_, ?_, ?_⟩
  · rw [readOne_notFound_iff]
    exact hnot
  · intro hmem
    exact hnot r hmem rfl
  · intro x hx hne
    rw [list, hrows]
    exact List.mem_filter.mpr ⟨hx, by simpa using ne_id_of_ne hwf hx hr hne⟩
  · rw [list, hrows]
    exact length_filter_ne _ r hwf.2 hr
  · intro id
    constructor
    · intro hok
      cases hq : readOne (serveAll Table.empty reqs) id with
      | notFound => simp [delete, hq] at hok
      | ok x => exact ⟨x, (readOne_ok_mem hq).1, (readOne_ok_mem hq).2⟩
    · rintro ⟨x, hx, rfl⟩
      simp [delete, readOne_of_mem hwf hx]

/-- C8: update persists and touches only what was changed, on the modelled
handlers.  After any sequence of requests, for every record `r` in the table,
updating its `completed` field to `true` returns `r` with `completed = true`
and a fresh `updatedAt`, the identifier, title and `createdAt` unchanged;
reading the identifier afterwards returns that same record; every other
record is still listed unchanged; and updating an identifier no listed record
has answers not-found and leaves the table as it was. -/
theorem update_completed (reqs : List Request) (now : Nat) (r : Todo)
    (hr : r ∈ list (serveAll Table.empty reqs)) :
    (update (serveAll Table.empty reqs) now r.id { title := none, completed := some true }).2
        = .ok { r with completed := true, updatedAt := now }
    ∧ readOne
        (update (serveAll Table.empty reqs) now r.id { title := none, completed := some true }).1
        r.id = .ok { r with completed := true, updatedAt := now }
    ∧ (∀ x ∈ list (serveAll Table.empty reqs), x ≠ r →
        x ∈ list
          (update (serveAll Table.empty reqs) now r.id
            { title := none, completed := some true }).1)
    ∧ (∀ id f, (∀ x ∈ list (serveAll Table.empty reqs), x.id ≠ id) →
        update (serveAll Table.empty reqs) now id f = (serveAll Table.empty reqs, .notFound)) := by
  have hwf : (serveAll Table.empty reqs).WF := wf_serveAll wf_empty reqs
  have hro := readOne_of_mem hwf hr
  have hwf2 := wf_update hwf now r.id { title := none, completed := some true }
  have hrows : (update (serveAll Table.empty reqs) now r.id
        { title := none, completed := some true }).1.rows
      = (serveAll Table.empty reqs).rows.map
          (fun x => if x.id = r.id
            then Fields.applyTo { title := none, completed := some true } now x else x) := by
    simp [update, hro]
  refine ⟨by simp [update, hro, Fields.applyTo], ?_, ?_, ?_⟩
  · have hmem : ({ r with completed := true, updatedAt := now } : Todo)
        ∈ (update (serveAll Table.empty reqs) now r.id
            { title := none, completed := some true }).1.rows := by
      rw [hrows]
      refine List.mem_map.mpr ⟨r, hr, ?_⟩
      simp [Fields.applyTo]
    exact readOne_of_mem hwf2 hmem
  · intro x hx hne
    rw [list, hrows]
    refine List.mem_map.mpr ⟨x, hx, ?_⟩
    simp [ne_id_of_ne hwf hx hr hne]
  · intro id f hall
    have := (readOne_notFound_iff (serveAll Table.empty reqs) id).mpr hall
    simp [update, this]


/-- Witness for C6: after `sampleRequests` the identifier 3 was never
returned by Create, and reading it answers not-found. -/
theorem create_read_roundtrip_witness :
    3 ∉ createdIds Table.empty sampleRequests
    ∧ readOne (serveAll Table.empty sampleRequests) 3 = .notFound :=
  ⟨by decide, (create_read_roundtrip sampleRequests 12 "call mum" true).2.2.2.2 3 (by decide)⟩

/-- Witness for C7: after `sampleRequests` the record `milk` is listed, and
deleting it leaves one record. -/
theorem delete_removes_witness :
    milk ∈ list (serveAll Table.empty sampleRequests)
    ∧ readOne (delete (serveAll Table.empty sampleRequests) milk.id).1 milk.id = .notFound
    ∧ (list (delete (serveAll Table.empty sampleRequests) milk.id).1).length + 1
        = (list (serveAll Table.empty sampleRequests)).length :=
  ⟨by decide, (delete_removes sampleRequests milk (by decide)).2.1,
    (delete_removes sampleRequests milk (by decide)).2.2.2.2.2.1⟩

/-- Witness for C8: after `sampleRequests` the record `milk` is listed, and
completing it is what a later read returns. -/
theorem update_completed_witness :
    milk ∈ list (serveAll Table.empty sampleRequests)
    ∧ readOne
        (update (serveAll Table.empty sampleRequests) 20 milk.id
          { title := none, completed := some true }).1 milk.id
        = .ok { milk with completed := true, updatedAt := 20 } :=
  ⟨by decide, (update_completed sampleRequests 20 milk (by decide)).2.1⟩

end GinEasyTodo
